import Mathlib

/-!
Verification of the "wisdom of the crowds" aggregation snippet from the
notebook `00_ensemble_methods_STARTER.ipynb`.

The snippet computes the arithmetic mean of a list of guesses
(`average_guess = np.mean(list_of_guesses)`), counts with a loop the
guesses strictly closer to the true weight than the average
(`if abs(guess - 1355) < abs(average_guess - 1355): winner_count += 1`),
and reports `np.round(winner_count/len(list_of_guesses), 0)` as a
percentage.  Numbers are modelled as rationals; the hard-coded true
weight 1355 is kept as an explicit `groundTruth` parameter, instantiated
at 1355 wherever scenarios from the notebook are evaluated.  On an empty
guess list the final division `winner_count/len(list_of_guesses)` is a
division by zero, so the aggregation as a whole fails; this single
failure mode is modelled with `Except` and a one-constructor error type.
-/

/-- The one error kind of the aggregation: the estimate list is empty. -/
inductive AggError where
  | InvalidInputError
deriving DecidableEq, Repr

/-- Result record of the aggregation, as described by the snippet's
outputs: the mean, the winner count, the winner fraction and the
per-guess verdict of the loop's branch condition, in input order. -/
structure AggregateResult where
  consensus : ℚ
  winnerCount : ℕ
  winnerFraction : ℚ
  verdicts : List Bool
deriving DecidableEq, Repr

instance {ε α : Type} [DecidableEq ε] [DecidableEq α] :
    DecidableEq (Except ε α) := fun a b =>
  match a, b with
  | .error x, .error y =>
    if h : x = y then .isTrue (by rw [h])
    else .isFalse (by intro hc; cases hc; exact h rfl)
  | .ok x, .ok y =>
    if h : x = y then .isTrue (by rw [h])
    else .isFalse (by intro hc; cases hc; exact h rfl)
  | .error _, .ok _ => .isFalse (by intro hc; cases hc)
  | .ok _, .error _ => .isFalse (by intro hc; cases hc)

/-- `np.mean(list_of_guesses)`: sum of the list divided by its length. -/
def average_guess (guesses : List ℚ) : ℚ :=
  guesses.sum / guesses.length

/-- One iteration of the notebook's loop: add one to the accumulator
when the guess is strictly closer to the ground truth than `avg` is. -/
def winner_step (groundTruth avg : ℚ) (acc : ℕ) (guess : ℚ) : ℕ :=
  if |guess - groundTruth| < |avg - groundTruth| then acc + 1 else acc

/-- The notebook's loop: starting from `winner_count = 0`, iterate over
the guesses and count those strictly closer to the truth than the
average guess. -/
def winner_count (guesses : List ℚ) (groundTruth : ℚ) : ℕ :=
  guesses.foldl (winner_step groundTruth (average_guess guesses)) 0

/-- Per-guess outcome of the loop's branch condition, in input order:
`true` exactly when the loop prints "We have a winner!" for the guess. -/
def verdicts (guesses : List ℚ) (groundTruth : ℚ) : List Bool :=
  guesses.map (fun guess =>
    decide (|guess - groundTruth| < |average_guess guesses - groundTruth|))

/-- The whole aggregation.  On an empty list the reported fraction
`winner_count/len(list_of_guesses)` is a division by zero and the run
fails; otherwise all four outputs are produced. -/
def aggregate (estimates : List ℚ) (groundTruth : ℚ) :
    Except AggError AggregateResult :=
  if estimates.isEmpty then .error .InvalidInputError
  else
    .ok { consensus := average_guess estimates
          winnerCount := winner_count estimates groundTruth
          winnerFraction :=
            (winner_count estimates groundTruth : ℚ) / estimates.length
          verdicts := verdicts estimates groundTruth }

/-- `np.round(x, 0)` on a rational: round to the nearest integer, ties
to the nearest even integer (IEEE round-half-to-even, which numpy
uses). -/
def roundHalfToEven (x : ℚ) : ℤ :=
  let n := ⌊x⌋
  let frac := x - n
  if frac < 1/2 then n
  else if 1/2 < frac then n + 1
  else if n % 2 = 0 then n else n + 1

/-- The value printed by the notebook as the percentage of winning
guesses: `np.round(winner_count/len(list_of_guesses), 0)`.  Fails on an
empty list (division by zero). -/
def reported_percent (guesses : List ℚ) (groundTruth : ℚ) :
    Except AggError ℤ :=
  if guesses.isEmpty then .error .InvalidInputError
  else .ok (roundHalfToEven
    ((winner_count guesses groundTruth : ℚ) / guesses.length))

/-! ### Basic lemmas about the loop and the record -/

/-- The counting loop, started from any accumulator, adds the number of
guesses satisfying the branch condition. -/
lemma winner_foldl (gt avg : ℚ) (l : List ℚ) (acc : ℕ) :
    l.foldl (winner_step gt avg) acc =
      acc + (l.filter (fun g => decide (|g - gt| < |avg - gt|))).length := by
  induction l generalizing acc with
  | nil => simp
  | cons x xs ih =>
    rw [List.foldl_cons, List.filter_cons]
    by_cases hx : |x - gt| < |avg - gt|
    · rw [if_pos (decide_eq_true hx)]
      simp only [winner_step]
      rw [if_pos hx, ih, List.length_cons]
      omega
    · rw [if_neg (by simpa using hx)]
      simp only [winner_step]
      rw [if_neg hx, ih]

/-- The loop count equals the number of guesses strictly closer to the
truth than the average guess. -/
lemma winner_count_eq_filter (l : List ℚ) (gt : ℚ) :
    winner_count l gt =
      (l.filter
        (fun g => decide (|g - gt| < |average_guess l - gt|))).length := by
  simpa using winner_foldl gt (average_guess l) l 0

lemma winner_count_le_length (l : List ℚ) (gt : ℚ) :
    winner_count l gt ≤ l.length := by
  rw [winner_count_eq_filter]
  exact List.length_filter_le _ _

/-- Unfolding a successful aggregation into its four components. -/
lemma aggregate_ok_elim {l : List ℚ} {gt : ℚ} {r : AggregateResult}
    (h : aggregate l gt = .ok r) :
    l ≠ [] ∧ r = ⟨average_guess l, winner_count l gt,
      (winner_count l gt : ℚ) / l.length, verdicts l gt⟩ := by
  unfold aggregate at h
  by_cases hE : l.isEmpty = true
  · rw [if_pos hE] at h
    cases h
  · rw [if_neg hE] at h
    refine ⟨by simpa using hE, ?_⟩
    exact (Except.ok.inj h).symm

lemma average_guess_perm {l l' : List ℚ} (h : l.Perm l') :
    average_guess l = average_guess l' := by
  unfold average_guess
  rw [h.sum_eq, h.length_eq]

/-! ### Concrete scenario evaluations -/

/-- The notebook's cow-weight scenario: four guesses against the true
weight 1355. -/
lemma scenario_cow : aggregate [1000, 1200, 1400, 1600] 1355 =
    .ok ⟨1300, 1, 1/4, [false, false, true, false]⟩ := by
  simp only [aggregate, average_guess, winner_count, winner_step, verdicts,
    List.sum_cons, List.sum_nil, List.length, List.foldl, List.map,
    List.isEmpty]
  norm_num

/-- All-identical guesses hitting the truth exactly. -/
lemma scenario_allsame : aggregate [500, 500, 500] 500 =
    .ok ⟨500, 0, 0, [false, false, false]⟩ := by
  simp only [aggregate, average_guess, winner_count, winner_step, verdicts,
    List.sum_cons, List.sum_nil, List.length, List.foldl, List.map,
    List.isEmpty]
  norm_num

/-- A single guess. -/
lemma scenario_single : aggregate [7] 3 = .ok ⟨7, 0, 0, [false]⟩ := by
  simp only [aggregate, average_guess, winner_count, winner_step, verdicts,
    List.sum_cons, List.sum_nil, List.length, List.foldl, List.map,
    List.isEmpty]
  norm_num

/-- Two guesses, in one order. -/
lemma scenario_pair1 : aggregate [1, 3] 0 =
    .ok ⟨2, 1, 1/2, [true, false]⟩ := by
  simp only [aggregate, average_guess, winner_count, winner_step, verdicts,
    List.sum_cons, List.sum_nil, List.length, List.foldl, List.map,
    List.isEmpty]
  norm_num

/-- The same two guesses, swapped. -/
lemma scenario_pair2 : aggregate [3, 1] 0 =
    .ok ⟨2, 1, 1/2, [false, true]⟩ := by
  simp only [aggregate, average_guess, winner_count, winner_step, verdicts,
    List.sum_cons, List.sum_nil, List.length, List.foldl, List.map,
    List.isEmpty]
  norm_num

/-- On the unit interval, round-half-to-even sends everything at most
one half to 0 and everything above one half to 1. -/
lemma roundHalfToEven_unitInterval (x : ℚ) (h0 : 0 ≤ x) (h1 : x ≤ 1) :
    roundHalfToEven x = if 1/2 < x then 1 else 0 := by
  unfold roundHalfToEven
  rcases eq_or_lt_of_le h1 with heq | hlt
  · rw [heq]
    norm_num
  · have hfl : ⌊x⌋ = 0 := Int.floor_eq_zero_iff.mpr ⟨h0, hlt⟩
    rw [hfl]
    by_cases hhalf : x < 1/2
    · have hns : ¬ (1/2 < x) := by linarith
      simp only [Int.cast_zero, sub_zero, if_pos hhalf, if_neg hns]
    · push_neg at hhalf
      rcases eq_or_lt_of_le hhalf with he | hgt
      · rw [← he]
        norm_num
      · have hn1 : ¬ (x - ((0 : ℤ) : ℚ) < 1/2) := by
          push_cast
          linarith
        have hp2 : (1 : ℚ)/2 < x - ((0 : ℤ) : ℚ) := by
          push_cast
          linarith
        simp only [if_neg hn1, if_pos hp2, if_pos hgt, zero_add]

/-! ### The claims -/

/-- C1: the aggregation fails exactly on the empty estimate list, with
`InvalidInputError` as the only error kind, and succeeds with a defined
result on every non-empty list. -/
theorem aggregate_fails_iff_empty (l : List ℚ) (gt : ℚ) :
    (aggregate l gt = .error .InvalidInputError ↔ l = []) ∧
    ((∃ r, aggregate l gt = .ok r) ↔ l ≠ []) := by
  unfold aggregate
  by_cases hE : l.isEmpty = true
  · have h0 : l = [] := by simpa using hE
    rw [if_pos hE]
    simp [h0]
  · have h0 : l ≠ [] := by simpa using hE
    rw [if_neg hE]
    simp [h0]

theorem aggregate_fails_iff_empty_witness :
    aggregate ([] : List ℚ) 1355 = .error .InvalidInputError :=
  (aggregate_fails_iff_empty [] 1355).1.mpr rfl

/-- C2: the winner count of a successful aggregation is exactly the
number of estimates whose absolute deviation from the ground truth is
strictly less than the consensus's absolute deviation; a tie with the
consensus's deviation is not counted. -/
theorem winnerCount_counts_strictly_closer (l : List ℚ) (gt : ℚ)
    (r : AggregateResult) (h : aggregate l gt = .ok r) :
    r.winnerCount =
      (l.filter (fun e => decide (|e - gt| < |r.consensus - gt|))).length := by
  obtain ⟨-, rfl⟩ := aggregate_ok_elim h
  simpa using winner_count_eq_filter l gt

theorem winnerCount_counts_strictly_closer_witness :
    (AggregateResult.mk 1300 1 (1/4) [false, false, true, false]).winnerCount =
      (([1000, 1200, 1400, 1600] : List ℚ).filter
        (fun e => decide (|e - 1355| <
          |(AggregateResult.mk 1300 1 (1/4)
              [false, false, true, false]).consensus - 1355|))).length :=
  winnerCount_counts_strictly_closer [1000, 1200, 1400, 1600] 1355 _
    scenario_cow

/-- C3: the consensus of a successful aggregation is the arithmetic
mean: the sum of the estimates (computed by an independent left fold)
divided by their count. -/
theorem consensus_is_arithmetic_mean (l : List ℚ) (gt : ℚ)
    (r : AggregateResult) (h : aggregate l gt = .ok r) :
    r.consensus = (List.foldl (· + ·) 0 l) / l.length := by
  obtain ⟨-, rfl⟩ := aggregate_ok_elim h
  show average_guess l = _
  rw [average_guess, List.sum_eq_foldl]

theorem consensus_is_arithmetic_mean_witness :
    (AggregateResult.mk 1300 1 (1/4) [false, false, true, false]).consensus =
      (List.foldl (· + ·) 0 ([1000, 1200, 1400, 1600] : List ℚ)) /
        ([1000, 1200, 1400, 1600] : List ℚ).length :=
  consensus_is_arithmetic_mean [1000, 1200, 1400, 1600] 1355 _ scenario_cow

/-- C4: the winner count of a successful aggregation lies between 0 and
the number of estimates, and the winner fraction is exactly the winner
count divided by the number of estimates, a rational in the unit
interval. -/
theorem winnerFraction_exact_and_bounded (l : List ℚ) (gt : ℚ)
    (r : AggregateResult) (h : aggregate l gt = .ok r) :
    r.winnerCount ≤ l.length ∧
    r.winnerFraction = (r.winnerCount : ℚ) / l.length ∧
    0 ≤ r.winnerFraction ∧ r.winnerFraction ≤ 1 := by
  obtain ⟨hne, rfl⟩ := aggregate_ok_elim h
  have hlen : 0 < l.length := List.length_pos.mpr hne
  have hle := winner_count_le_length l gt
  refine ⟨hle, rfl, ?_, ?_⟩
  · show (0 : ℚ) ≤ (winner_count l gt : ℚ) / l.length
    positivity
  · show (winner_count l gt : ℚ) / l.length ≤ 1
    rw [div_le_one (by exact_mod_cast hlen)]
    exact_mod_cast hle

theorem winnerFraction_exact_and_bounded_witness :
    (AggregateResult.mk 1300 1 (1/4)
        [false, false, true, false]).winnerCount ≤
      ([1000, 1200, 1400, 1600] : List ℚ).length ∧
    (AggregateResult.mk 1300 1 (1/4)
        [false, false, true, false]).winnerFraction =
      ((AggregateResult.mk 1300 1 (1/4)
          [false, false, true, false]).winnerCount : ℚ) /
        ([1000, 1200, 1400, 1600] : List ℚ).length ∧
    0 ≤ (AggregateResult.mk 1300 1 (1/4)
        [false, false, true, false]).winnerFraction ∧
    (AggregateResult.mk 1300 1 (1/4)
        [false, false, true, false]).winnerFraction ≤ 1 :=
  winnerFraction_exact_and_bounded [1000, 1200, 1400, 1600] 1355 _
    scenario_cow

/-- C5: the notebook's cow-weight scenario: on the estimates 1000, 1200,
1400, 1600 with ground truth 1355, the aggregation returns consensus
1300, winner count 1, winner fraction one quarter, and only the third
estimate is a winner. -/
theorem scenario_cow_guesses :
    aggregate [1000, 1200, 1400, 1600] 1355 =
      .ok ⟨1300, 1, 1/4, [false, false, true, false]⟩ :=
  scenario_cow

/-- C6: whenever a successful aggregation's consensus equals the ground
truth exactly, the winner count is zero, because no absolute deviation
is strictly below zero. -/
theorem consensus_hits_truth_no_winners (l : List ℚ) (gt : ℚ)
    (r : AggregateResult) (h : aggregate l gt = .ok r)
    (hc : r.consensus = gt) : r.winnerCount = 0 := by
  obtain ⟨-, rfl⟩ := aggregate_ok_elim h
  have hc' : average_guess l = gt := hc
  show winner_count l gt = 0
  rw [winner_count_eq_filter, List.length_eq_zero, List.filter_eq_nil_iff]
  intro a ha
  simp only [decide_eq_true_eq, hc', sub_self, abs_zero]
  exact not_lt.mpr (abs_nonneg _)

theorem consensus_hits_truth_no_winners_witness :
    (AggregateResult.mk 500 0 0 [false, false, false]).winnerCount = 0 :=
  consensus_hits_truth_no_winners [500, 500, 500] 500 _ scenario_allsame rfl

/-- C7: aggregating a single estimate yields that estimate as consensus
and a winner count of zero, since the lone estimate ties its own
deviation. -/
theorem singleton_consensus_no_winner (x gt : ℚ) (r : AggregateResult)
    (h : aggregate [x] gt = .ok r) :
    r.consensus = x ∧ r.winnerCount = 0 := by
  obtain ⟨-, rfl⟩ := aggregate_ok_elim h
  have havg : average_guess [x] = x := by
    simp [average_guess]
  constructor
  · exact havg
  · show winner_count [x] gt = 0
    rw [winner_count_eq_filter]
    simp [havg]

theorem singleton_consensus_no_winner_witness :
    (AggregateResult.mk 7 0 0 [false]).consensus = 7 ∧
    (AggregateResult.mk 7 0 0 [false]).winnerCount = 0 :=
  singleton_consensus_no_winner 7 3 _ scenario_single

/-- C8: the aggregation is deterministic: two successful runs on the
same estimates and ground truth agree on all four outputs.  (In this
embedding the inputs are immutable values, matching the source loop,
which only reads `list_of_guesses`.) -/
theorem aggregate_deterministic (l : List ℚ) (gt : ℚ)
    (r₁ r₂ : AggregateResult) (h₁ : aggregate l gt = .ok r₁)
    (h₂ : aggregate l gt = .ok r₂) :
    r₁.consensus = r₂.consensus ∧ r₁.winnerCount = r₂.winnerCount ∧
    r₁.winnerFraction = r₂.winnerFraction ∧ r₁.verdicts = r₂.verdicts := by
  have h : r₁ = r₂ := Except.ok.inj (h₁.symm.trans h₂)
  rw [h]
  exact ⟨rfl, rfl, rfl, rfl⟩

theorem aggregate_deterministic_witness :
    (AggregateResult.mk 1300 1 (1/4) [false, false, true, false]).consensus =
      (AggregateResult.mk 1300 1 (1/4)
        [false, false, true, false]).consensus ∧
    (AggregateResult.mk 1300 1 (1/4)
        [false, false, true, false]).winnerCount =
      (AggregateResult.mk 1300 1 (1/4)
        [false, false, true, false]).winnerCount ∧
    (AggregateResult.mk 1300 1 (1/4)
        [false, false, true, false]).winnerFraction =
      (AggregateResult.mk 1300 1 (1/4)
        [false, false, true, false]).winnerFraction ∧
    (AggregateResult.mk 1300 1 (1/4)
        [false, false, true, false]).verdicts =
      (AggregateResult.mk 1300 1 (1/4)
        [false, false, true, false]).verdicts :=
  aggregate_deterministic [1000, 1200, 1400, 1600] 1355 _ _
    scenario_cow scenario_cow

/-- C9: permuting the estimates leaves consensus, winner count and
winner fraction unchanged, and the verdicts of the permuted run are the
per-estimate outcomes in the permuted input order, relative to the same
consensus. -/
theorem aggregate_perm_invariant (l l' : List ℚ) (gt : ℚ)
    (hp : l.Perm l') (r r' : AggregateResult)
    (h : aggregate l gt = .ok r) (h' : aggregate l' gt = .ok r') :
    r.consensus = r'.consensus ∧ r.winnerCount = r'.winnerCount ∧
    r.winnerFraction = r'.winnerFraction ∧
    r'.verdicts =
      l'.map (fun e => decide (|e - gt| < |r.consensus - gt|)) := by
  obtain ⟨-, rfl⟩ := aggregate_ok_elim h
  obtain ⟨-, rfl⟩ := aggregate_ok_elim h'
  have havg : average_guess l = average_guess l' := average_guess_perm hp
  have hwc : winner_count l gt = winner_count l' gt := by
    rw [winner_count_eq_filter, winner_count_eq_filter, ← havg]
    exact (hp.filter _).length_eq
  refine ⟨havg, hwc, ?_, ?_⟩
  · show (winner_count l gt : ℚ) / l.length =
      (winner_count l' gt : ℚ) / l'.length
    rw [hwc, hp.length_eq]
  · show verdicts l' gt = _
    rw [verdicts]
    show _ = l'.map (fun e => decide (|e - gt| < |average_guess l - gt|))
    rw [havg]

theorem aggregate_perm_invariant_witness :
    (AggregateResult.mk 2 1 (1/2) [true, false]).consensus =
      (AggregateResult.mk 2 1 (1/2) [false, true]).consensus ∧
    (AggregateResult.mk 2 1 (1/2) [true, false]).winnerCount =
      (AggregateResult.mk 2 1 (1/2) [false, true]).winnerCount ∧
    (AggregateResult.mk 2 1 (1/2) [true, false]).winnerFraction =
      (AggregateResult.mk 2 1 (1/2) [false, true]).winnerFraction ∧
    (AggregateResult.mk 2 1 (1/2) [false, true]).verdicts =
      ([3, 1] : List ℚ).map (fun e => decide (|e - 0| <
        |(AggregateResult.mk 2 1 (1/2) [true, false]).consensus - 0|)) :=
  aggregate_perm_invariant [1, 3] [3, 1] 0 (List.Perm.swap 3 1 []) _ _
    scenario_pair1 scenario_pair2

/-- The percent reported for the cow-weight scenario: the winner
fraction one quarter rounds to zero. -/
lemma scenario_cow_percent :
    reported_percent [1000, 1200, 1400, 1600] 1355 = .ok 0 := by
  have hfl : ⌊(1/4 : ℚ)⌋ = 0 := by
    norm_num [Int.floor_eq_zero_iff, Set.mem_Ico]
  simp only [reported_percent, winner_count, winner_step, average_guess,
    List.sum_cons, List.sum_nil, List.length, List.foldl, List.isEmpty]
  norm_num [roundHalfToEven, hfl]

/-- C10: the value the notebook prints as the percentage of winning
guesses is the winner fraction rounded to zero decimal places, hence
always 0 or 1 on a successful run, and it differs from 100 times the
winner fraction whenever the winner count is strictly between 0 and the
number of guesses. -/
theorem reported_percent_zero_or_one (l : List ℚ) (gt : ℚ) (p : ℤ)
    (hp : reported_percent l gt = .ok p) :
    (p = 0 ∨ p = 1) ∧
    (0 < winner_count l gt → winner_count l gt < l.length →
      (p : ℚ) ≠ 100 * ((winner_count l gt : ℚ) / l.length)) := by
  unfold reported_percent at hp
  by_cases hE : l.isEmpty = true
  · rw [if_pos hE] at hp
    cases hp
  · rw [if_neg hE] at hp
    have hne : l ≠ [] := by simpa using hE
    have hlen : 0 < l.length := List.length_pos.mpr hne
    have hnQ : (0 : ℚ) < (l.length : ℚ) := by exact_mod_cast hlen
    have hle := winner_count_le_length l gt
    set x : ℚ := (winner_count l gt : ℚ) / (l.length : ℚ) with hxdef
    have hx0 : 0 ≤ x := by positivity
    have hx1 : x ≤ 1 := by
      rw [hxdef, div_le_one hnQ]
      exact_mod_cast hle
    have hpx : p = roundHalfToEven x := (Except.ok.inj hp).symm
    rw [roundHalfToEven_unitInterval x hx0 hx1] at hpx
    constructor
    · by_cases h2 : 1/2 < x
      · right
        rw [hpx, if_pos h2]
      · left
        rw [hpx, if_neg h2]
    · intro hpos hlt heq
      by_cases h2 : 1/2 < x
      · rw [hpx, if_pos h2] at heq
        have hx100 : x = 1/100 := by
          push_cast at heq
          linarith
        rw [hx100] at h2
        norm_num at h2
      · rw [hpx, if_neg h2] at heq
        have hx : x = 0 := by
          push_cast at heq
          linarith
        rw [hxdef] at hx
        have hwc0 : (winner_count l gt : ℚ) = 0 := by
          rcases div_eq_zero_iff.mp hx with h | h
          · exact h
          · exact absurd h (ne_of_gt hnQ)
        have : winner_count l gt = 0 := by exact_mod_cast hwc0
        omega

theorem reported_percent_zero_or_one_witness :
    ((0 : ℤ) = 0 ∨ (0 : ℤ) = 1) ∧
    (0 < winner_count [1000, 1200, 1400, 1600] 1355 →
      winner_count [1000, 1200, 1400, 1600] 1355 <
        ([1000, 1200, 1400, 1600] : List ℚ).length →
      ((0 : ℤ) : ℚ) ≠ 100 * ((winner_count [1000, 1200, 1400, 1600] 1355 : ℚ) /
        ([1000, 1200, 1400, 1600] : List ℚ).length)) :=
  reported_percent_zero_or_one [1000, 1200, 1400, 1600] 1355 0
    scenario_cow_percent
